import Mathlib

/-!
Verification of the txaws storage client (txaws/storage/client.py): a shallow
embedding of the S3Client facade and of the Query request builder / signer,
with theorems checking the specification's claims against it.

The embedding follows the source line by line.  Collaborators that live
outside the storage module (the service endpoint object, the credentials
object, the MD5 utility, the mimetypes guesser and the clock) are modelled
from the spec, each with a doc comment saying so.
-/

namespace TxAWS

/-- Truthiness of an optional string, as Python evaluates `if s:` on an
attribute that is either None or a string: None and the empty string are
falsy. -/
def truthy : Option String → Bool
  | none => false
  | some s => !(s == "")

/-- Python str.lower(), character by character (header names here are
ASCII). -/
def strLower (s : String) : String := ⟨s.data.map Char.toLower⟩

/-- Whether the first character list is a prefix of the second. -/
def listIsPre : List Char → List Char → Bool
  | [], _ => true
  | _ :: _, [] => false
  | a :: as, b :: bs => a == b && listIsPre as bs

/-- Python s.startswith(pre). -/
def strStartsWith (s pre : String) : Bool := listIsPre pre.data s.data

/-- Python s.endswith(post). -/
def strEndsWith (s post : String) : Bool :=
  listIsPre post.data.reverse s.data.reverse

/-- Modelled from the spec: the credentials collaborator (not under src/).
It carries the access-key identifier and an opaque signing capability
`sign text hash_type` producing an encoded signature. -/
structure Credentials where
  access_key : String
  secret_key : String
  sign : String → String → String

/-- Modelled from the spec: AWSServiceEndpoint (txaws/service.py, not under
src/): scheme, hostname, and the HTTP method currently in effect. -/
structure AWSServiceEndpoint where
  scheme : String
  host : String
  method : String

/-- Modelled from the spec: the endpoint accessor returning its hostname. -/
def AWSServiceEndpoint.get_host (e : AWSServiceEndpoint) : String := e.host

/-- Modelled from the spec: records which HTTP method a Query will use. -/
def AWSServiceEndpoint.set_method (e : AWSServiceEndpoint) (m : String) :
    AWSServiceEndpoint :=
  { e with method := m }

/-- Modelled from the spec: the standard public S3 endpoint used as the
default when none is supplied. -/
def S3_ENDPOINT : AWSServiceEndpoint :=
  { scheme := "https", host := "s3.amazonaws.com", method := "GET" }

/-- Modelled from the spec: txaws.util.calculate_md5 (not under src/), the
base64-encoded MD5 digest of the payload.  It is an opaque pure function of
the payload bytes; it is represented by an injective placeholder, and no
claim depends on its concrete values. -/
def calculate_md5 (data : String) : String := "md5-base64:" ++ data

/-- Modelled from the spec: the table behind the mimetypes collaborator,
mapping file-name extensions to content types (best-effort, not exhaustive,
as the spec allows). -/
def mimetypes_table : List (String × String) :=
  [(".pdf", "application/pdf"), (".txt", "text/plain"),
   (".html", "text/html"), (".xml", "text/xml"), (".jpg", "image/jpeg"),
   (".png", "image/png"), (".json", "application/json"),
   (".zip", "application/zip")]

/-- Modelled from the spec: mimetypes.guess_type(name, strict=False), the
best-effort guess of a content type from the object name extension,
returning an optional type and an optional encoding; inference fails (first
component none) when the extension is unknown. -/
def mimetypes_guess_type (name : String) : Option String × Option String :=
  match mimetypes_table.find? (fun p => strEndsWith (strLower name) p.1) with
  | some p => (some p.2, none)
  | none => (none, none)

/-- Python dict assignment d[k] = v on an association list: replaces the
value at an existing key, otherwise appends the new binding. -/
def dictInsert (m : List (String × String)) (k v : String) :
    List (String × String) :=
  if m.any (fun p => p.1 == k) then
    m.map (fun p => if p.1 == k then (k, v) else p)
  else m ++ [(k, v)]

/-- Python d.get(k): the value bound to a key, when present. -/
def dictGet? (m : List (String × String)) (k : String) : Option String :=
  (m.find? (fun p => p.1 == k)).map (fun p => p.2)

/-- Python d.get(k, dflt). -/
def dictGetD (m : List (String × String)) (k dflt : String) : String :=
  (dictGet? m k).getD dflt

/-- The attributes of a successfully constructed Query
(txaws/storage/client.py, class Query).  The date is the textual timestamp
captured from the clock at construction; action, creds and endpoint are the
attributes stored by BaseQuery (modelled from the spec). -/
structure Query where
  bucket : Option String
  object_name : Option String
  data : String
  content_type : Option String
  metadata : List (String × String)
  action : String
  creds : Option Credentials
  endpoint : AWSServiceEndpoint
  date : String

/-- Query.get_host: the endpoint host, prefixed by the bucket as a DNS
label when a bucket is set (Python truthiness: an empty bucket name counts
as unset here). -/
def Query.get_host (q : Query) : String :=
  if truthy q.bucket then (q.bucket.getD "") ++ "." ++ q.endpoint.get_host
  else q.endpoint.get_host

/-- Query.get_path: starts from "/" and overrides it only when the bucket
attribute is not None and the object name is truthy; an object name that
already starts with "/" is used verbatim. -/
def Query.get_path (q : Query) : String :=
  if q.bucket.isSome && truthy q.object_name then
    let n := q.object_name.getD ""
    if strStartsWith n "/" then n else "/" ++ n
  else "/"

/-- Query.get_uri: scheme, host and path concatenated. -/
def Query.get_uri (q : Query) : String :=
  q.endpoint.scheme ++ "://" ++ q.get_host ++ q.get_path

/-- Query.set_content_type mutates self.content_type; this is the value of
the attribute after the call: when the object name is truthy and the
content type is falsy, the guessed type (possibly none, the guessed
encoding being discarded), otherwise the attribute unchanged. -/
def Query.set_content_type (q : Query) : Option String :=
  if truthy q.object_name && !(truthy q.content_type) then
    (mimetypes_guess_type (q.object_name.getD "")).1
  else q.content_type

/-- Python character comparison: by code point. -/
def charLtB (a b : Char) : Bool := decide (a.toNat < b.toNat)

/-- Python string comparison, lexicographic on the characters. -/
def listLtB : List Char → List Char → Bool
  | [], [] => false
  | [], _ :: _ => true
  | _ :: _, [] => false
  | a :: as, b :: bs => charLtB a b || (a == b && listLtB as bs)

/-- Python strict comparison a < b of strings. -/
def strLtB (a b : String) : Bool := listLtB a.data b.data

/-- Lexicographic comparison of (name, value) pairs, as Python compares
tuples of strings in list.sort(). -/
def pairLe (a b : String × String) : Bool :=
  strLtB a.1 b.1 || (a.1 == b.1 && (strLtB a.2 b.2 || a.2 == b.2))

/-- Insertion of a pair into a list sorted by pairLe. -/
def insertPair (a : String × String) :
    List (String × String) → List (String × String)
  | [] => [a]
  | b :: bs => if pairLe a b then a :: b :: bs else b :: insertPair a bs

/-- Python list.sort() on (name, value) string tuples: pairLe is a linear
order (lexicographic on a pair of linearly ordered strings), so the sorted
permutation is unique and this insertion sort returns exactly it. -/
def sortPairs (l : List (String × String)) : List (String × String) :=
  l.foldr insertPair []

/-- Query.get_canonicalized_amz_headers (the method ignores self): keeps
the headers whose lower-cased name starts with "x-amz-", lower-casing the
names, sorts the pairs, and joins each as one "name:value" line ended by a
newline. -/
def get_canonicalized_amz_headers (headers : List (String × String)) :
    String :=
  let hs := (headers.map (fun p => (strLower p.1, p.2))).filter
      (fun p => strStartsWith p.1 "x-amz-")
  String.join ((sortPairs hs).map (fun p => p.1 ++ ":" ++ p.2 ++ "\n"))

/-- The canonical signing string assembled inside Query.sign from the
method, the Content-MD5, Content-Type and Date header values, the
canonicalized amz headers and the path. -/
def Query.signText (q : Query) (headers : List (String × String)) : String :=
  q.action ++ "\n" ++
  dictGetD headers "Content-MD5" "" ++ "\n" ++
  dictGetD headers "Content-Type" "" ++ "\n" ++
  dictGetD headers "Date" "" ++ "\n" ++
  get_canonicalized_amz_headers headers ++
  q.get_path

/-- Query.sign: the credential signs the canonical string with the sha1
hash type.  On a credential-less Query the source would fail the attribute
lookup on None; the callers only invoke it with credentials present, and
the credential-less case is modelled as none. -/
def Query.sign (q : Query) (headers : List (String × String)) :
    Option String :=
  q.creds.map (fun c => c.sign (q.signText headers) "sha1")

/-- The headers assembled by Query.get_headers before the Authorization
header is added: Content-Length (the payload length, an int in the source,
rendered here as its decimal string), Content-MD5, Date, one
"x-amz-meta-"-prefixed header per metadata entry, and the (possibly
inferred) Content-Type when known.  This is the header set the signature
is computed over. -/
def Query.headersToSign (q : Query) : List (String × String) :=
  let headers : List (String × String) :=
    [("Content-Length", toString q.data.length),
     ("Content-MD5", calculate_md5 q.data),
     ("Date", q.date)]
  let headers := q.metadata.foldl
      (fun h p => dictInsert h ("x-amz-meta-" ++ p.1) p.2) headers
  match q.set_content_type with
  | some t => dictInsert headers "Content-Type" t
  | none => headers

/-- Query.get_headers: the headers to sign, plus, when credentials are
present, the Authorization header "AWS access_key:signature" where the
signature is self.sign over the headers assembled so far; without
credentials no signature is computed. -/
def Query.get_headers (q : Query) : List (String × String) :=
  match q.creds with
  | some c =>
      dictInsert q.headersToSign "Authorization"
        ("AWS " ++ c.access_key ++ ":" ++
          c.sign (q.signText q.headersToSign) "sha1")
  | none => q.headersToSign

/-- The canonical signing string as a function of its six components. -/
def signTextParts (m md5 ct d z p : String) : String :=
  m ++ "\n" ++ md5 ++ "\n" ++ ct ++ "\n" ++ d ++ "\n" ++ z ++ p

/-- A Query built with an object name "obj" but no bucket. -/
def q4NoBucket : Query :=
  { bucket := none, object_name := some "obj", data := "",
    content_type := none, metadata := [], action := "GET", creds := none,
    endpoint := S3_ENDPOINT, date := "D" }

/-- The same Query with a bucket set. -/
def q4Bucketed : Query := { q4NoBucket with bucket := some "b" }

/-- A putObject-style Query for "report.pdf" with no explicit type. -/
def q7Report : Query :=
  { bucket := some "docs", object_name := some "report.pdf",
    data := "data", content_type := none, metadata := [], action := "PUT",
    creds := none, endpoint := S3_ENDPOINT, date := "D" }

/-- Concrete credentials whose signing capability is the identity on the
text (injective, so the sensitivity branches apply). -/
def cSign : Credentials :=
  { access_key := "AK", secret_key := "SK", sign := fun t _ => t }

/-- A concrete signed Query used by the witnesses. -/
def qW (act obj : String) : Query :=
  { bucket := some "bkt", object_name := some obj, data := "",
    content_type := none, metadata := [], action := act,
    creds := some cSign, endpoint := S3_ENDPOINT, date := "D" }

/-- A concrete Query pair for the C10 witness. -/
def q10a : Query :=
  { bucket := some "alpha", object_name := some "o", data := "x",
    content_type := none, metadata := [("k", "v")], action := "PUT",
    creds := some cSign, endpoint := S3_ENDPOINT, date := "D" }

/-- The same Query with the other bucket name. -/
def q10b : Query := { q10a with bucket := some "beta" }

/-! The S3Client facade, with the Python call semantics its bugs hinge
on. -/

/-- A Python value as passed around by the S3Client facade. -/
inductive PyVal where
  | pynone
  | str (s : String)
  | creds (c : Credentials)
  | endpoint (e : AWSServiceEndpoint)
  | dict (m : List (String × String))

/-- The optional credentials attribute as a Python value. -/
def pyOfCreds : Option Credentials → PyVal
  | none => PyVal.pynone
  | some c => PyVal.creds c

/-- The optional endpoint attribute as a Python value. -/
def pyOfEndpoint : Option AWSServiceEndpoint → PyVal
  | none => PyVal.pynone
  | some e => PyVal.endpoint e

/-- An optional string argument as a Python value. -/
def pyOfStrOpt : Option String → PyVal
  | none => PyVal.pynone
  | some s => PyVal.str s

/-- The errors the Python runtime raises in the flows modelled here. -/
inductive PyError where
  | attributeError (name : String)
  | typeError (msg : String)

/-- A Python call f(*pos, **kw). -/
structure PyCall where
  pos : List PyVal
  kw : List (String × PyVal)

/-- Python binding of one named parameter of a def: the positional
argument at the parameter's index wins but clashes with a keyword of the
same name (TypeError: got multiple values); otherwise the keyword;
otherwise the default. -/
def bindParam (call : PyCall) (idx : Nat) (name : String) (dflt : PyVal) :
    Except PyError PyVal :=
  match call.pos[idx]? with
  | some v =>
      if call.kw.any (fun p => p.1 == name) then
        Except.error (.typeError ("got multiple values for argument "
          ++ name))
      else Except.ok v
  | none =>
      match call.kw.find? (fun p => p.1 == name) with
      | some p => Except.ok p.2
      | none => Except.ok dflt

/-- The attribute state of a successfully constructed Query before any
typing: Python stores whatever values were bound, so the fields hold raw
Python values (the typed Query structure above describes the
correctly-typed states the facade was meant to build). -/
structure RawQuery where
  bucket : PyVal
  object_name : PyVal
  data : PyVal
  content_type : PyVal
  metadata : PyVal
  action : PyVal
  creds : PyVal
  endpoint : PyVal
  date : String

/-- Query.__init__ applied to a Python call at clock time now: binds the
five named parameters (bucket, object_name, data, content_type, metadata)
under Python call semantics, passes the remaining arguments to
BaseQuery.__init__ — modelled from the spec: BaseQuery
(txaws/client/base.py, not under src/) binds action, creds and endpoint —
then assigns the attributes, defaults a hostless endpoint to the public
S3 endpoint and records the method on it. -/
def queryInit (now : String) (call : PyCall) : Except PyError RawQuery := do
  let bucket ← bindParam call 0 "bucket" PyVal.pynone
  let object_name ← bindParam call 1 "object_name" PyVal.pynone
  let data ← bindParam call 2 "data" (PyVal.str "")
  let content_type ← bindParam call 3 "content_type" PyVal.pynone
  let metadata ← bindParam call 4 "metadata" (PyVal.dict [])
  let rest : PyCall :=
    { pos := call.pos.drop 5,
      kw := call.kw.filter (fun p =>
        !(["bucket", "object_name", "data", "content_type",
           "metadata"].contains p.1)) }
  let action ← bindParam rest 0 "action" PyVal.pynone
  let creds ← bindParam rest 1 "creds" PyVal.pynone
  let endpoint ← bindParam rest 2 "endpoint" PyVal.pynone
  if rest.pos.length > 3 then
    Except.error (.typeError "too many positional arguments")
  else if rest.kw.any (fun p =>
      !(["action", "creds", "endpoint"].contains p.1)) then
    Except.error (.typeError "unexpected keyword argument")
  else
    let ep := match endpoint with
      | PyVal.endpoint e => if e.host == "" then S3_ENDPOINT else e
      | _ => S3_ENDPOINT
    let ep := match action with
      | PyVal.str a => ep.set_method a
      | _ => ep
    Except.ok
      { bucket := bucket, object_name := object_name, data := data,
        content_type := content_type, metadata := metadata,
        action := action, creds := creds,
        endpoint := PyVal.endpoint ep, date := now }

/-- The factory stored by the client: invoked with the construction-time
clock value and the Python call, it yields a constructed query or raises.
The default factory is the Query class itself, that is queryInit. -/
def QueryFactory : Type := String → PyCall → Except PyError RawQuery

/-- S3Client.__init__ stores exactly these three instance attributes. -/
structure S3Client where
  query_factory : QueryFactory
  creds : Option Credentials
  endpoint : Option AWSServiceEndpoint

/-- S3Client(creds, endpoint) with the default query factory. -/
def S3Client.mkDefault (creds : Option Credentials)
    (endpoint : Option AWSServiceEndpoint) : S3Client :=
  { query_factory := queryInit, creds := creds, endpoint := endpoint }

/-- An instance attribute as fetched by self.name. -/
inductive S3Attr where
  | factory (f : QueryFactory)
  | val (v : PyVal)

/-- Python attribute lookup on an S3Client instance: the only instance
attributes are the three assigned in S3Client.__init__; any other name
raises AttributeError. -/
def S3Client.getattr (c : S3Client) : String → Except PyError S3Attr
  | "query_factory" => Except.ok (S3Attr.factory c.query_factory)
  | "creds" => Except.ok (S3Attr.val (pyOfCreds c.creds))
  | "endpoint" => Except.ok (S3Attr.val (pyOfEndpoint c.endpoint))
  | n => Except.error (.attributeError n)

/-- S3Client.make_request:
self.request_factory(creds=self.creds, endpoint=self.endpoint, *a, **kw).
The attribute lookup comes first; if it yields a callable the call is
made with creds and endpoint added as keywords. -/
def S3Client.make_request (c : S3Client) (now : String) (a : List PyVal)
    (kw : List (String × PyVal)) : Except PyError RawQuery :=
  match c.getattr "request_factory" with
  | Except.error e => Except.error e
  | Except.ok (S3Attr.factory f) =>
      f now { pos := a,
              kw := [("creds", pyOfCreds c.creds),
                     ("endpoint", pyOfEndpoint c.endpoint)] ++ kw }
  | Except.ok (S3Attr.val _) =>
      Except.error (.typeError "object is not callable")

/-- S3Client.create_bucket: query_factory("PUT", creds, endpoint,
bucket=bucket), then submit; modelled up to the query whose submit would
be called. -/
def S3Client.create_bucket (c : S3Client) (now bucket : String) :
    Except PyError RawQuery :=
  c.query_factory now
    { pos := [PyVal.str "PUT", pyOfCreds c.creds, pyOfEndpoint c.endpoint],
      kw := [("bucket", PyVal.str bucket)] }

/-- S3Client.put_object: make_request("PUT", bucket, object_name, data,
content_type, metadata), then submit. -/
def S3Client.put_object (c : S3Client)
    (now bucket object_name data : String) (content_type : Option String)
    (metadata : List (String × String)) : Except PyError RawQuery :=
  c.make_request now
    [PyVal.str "PUT", PyVal.str bucket, PyVal.str object_name,
     PyVal.str data, pyOfStrOpt content_type, PyVal.dict metadata] []

/-- S3Client.get_object: make_request("GET", bucket, object_name). -/
def S3Client.get_object (c : S3Client) (now bucket object_name : String) :
    Except PyError RawQuery :=
  c.make_request now
    [PyVal.str "GET", PyVal.str bucket, PyVal.str object_name] []

/-- S3Client.head_object: make_request("HEAD", bucket, object_name). -/
def S3Client.head_object (c : S3Client) (now bucket object_name : String) :
    Except PyError RawQuery :=
  c.make_request now
    [PyVal.str "HEAD", PyVal.str bucket, PyVal.str object_name] []

/-- S3Client.delete_object: make_request("DELETE", bucket, object_name). -/
def S3Client.delete_object (c : S3Client)
    (now bucket object_name : String) : Except PyError RawQuery :=
  c.make_request now
    [PyVal.str "DELETE", PyVal.str bucket, PyVal.str object_name] []

/-- S3Client.delete_bucket: make_request("DELETE", bucket). -/
def S3Client.delete_bucket (c : S3Client) (now bucket : String) :
    Except PyError RawQuery :=
  c.make_request now [PyVal.str "DELETE", PyVal.str bucket] []

/-! Helper lemmas about string concatenation. -/

/-- Right cancellation for string concatenation. -/
theorem str_append_cancel_right {a b c : String} (h : a ++ c = b ++ c) :
    a = b := by
  apply String.ext
  have hd := congrArg String.data h
  simp only [String.data_append] at hd
  exact List.append_cancel_right hd

/-- Left cancellation for string concatenation. -/
theorem str_append_cancel_left {a b c : String} (h : a ++ b = a ++ c) :
    b = c := by
  apply String.ext
  have hd := congrArg String.data h
  simp only [String.data_append] at hd
  exact List.append_cancel_left hd

/-- Query.signText is signTextParts applied to the six components the
source reads. -/
theorem signText_eq_parts (q : Query) (headers : List (String × String)) :
    q.signText headers =
      signTextParts q.action (dictGetD headers "Content-MD5" "")
        (dictGetD headers "Content-Type" "") (dictGetD headers "Date" "")
        (get_canonicalized_amz_headers headers) q.get_path := rfl

/-- Fully right-associated form of signTextParts. -/
theorem signTextParts_norm (m md5 ct d z p : String) :
    signTextParts m md5 ct d z p =
      m ++ ("\n" ++ (md5 ++ ("\n" ++ (ct ++ ("\n" ++
        (d ++ ("\n" ++ (z ++ p)))))))) := by
  simp [signTextParts, String.append_assoc]

theorem signTextParts_inj_method {m1 m2 a b c z p : String}
    (h : signTextParts m1 a b c z p = signTextParts m2 a b c z p) :
    m1 = m2 := by
  rw [signTextParts_norm, signTextParts_norm] at h
  exact str_append_cancel_right h

theorem signTextParts_inj_md5 {m a1 a2 b c z p : String}
    (h : signTextParts m a1 b c z p = signTextParts m a2 b c z p) :
    a1 = a2 := by
  rw [signTextParts_norm, signTextParts_norm] at h
  have h1 := str_append_cancel_left h
  have h2 := str_append_cancel_left h1
  exact str_append_cancel_right h2

theorem signTextParts_inj_ct {m a b1 b2 c z p : String}
    (h : signTextParts m a b1 c z p = signTextParts m a b2 c z p) :
    b1 = b2 := by
  rw [signTextParts_norm, signTextParts_norm] at h
  have h1 := str_append_cancel_left h
  have h2 := str_append_cancel_left h1
  have h3 := str_append_cancel_left h2
  have h4 := str_append_cancel_left h3
  exact str_append_cancel_right h4

theorem signTextParts_inj_date {m a b c1 c2 z p : String}
    (h : signTextParts m a b c1 z p = signTextParts m a b c2 z p) :
    c1 = c2 := by
  rw [signTextParts_norm, signTextParts_norm] at h
  have h1 := str_append_cancel_left h
  have h2 := str_append_cancel_left h1
  have h3 := str_append_cancel_left h2
  have h4 := str_append_cancel_left h3
  have h5 := str_append_cancel_left h4
  have h6 := str_append_cancel_left h5
  exact str_append_cancel_right h6

theorem signTextParts_inj_amz {m a b c z1 z2 p : String}
    (h : signTextParts m a b c z1 p = signTextParts m a b c z2 p) :
    z1 = z2 := by
  rw [signTextParts_norm, signTextParts_norm] at h
  have h1 := str_append_cancel_left h
  have h2 := str_append_cancel_left h1
  have h3 := str_append_cancel_left h2
  have h4 := str_append_cancel_left h3
  have h5 := str_append_cancel_left h4
  have h6 := str_append_cancel_left h5
  have h7 := str_append_cancel_left h6
  have h8 := str_append_cancel_left h7
  exact str_append_cancel_right h8

theorem signTextParts_inj_path {m a b c z p1 p2 : String}
    (h : signTextParts m a b c z p1 = signTextParts m a b c z p2) :
    p1 = p2 := by
  rw [signTextParts_norm, signTextParts_norm] at h
  have h1 := str_append_cancel_left h
  have h2 := str_append_cancel_left h1
  have h3 := str_append_cancel_left h2
  have h4 := str_append_cancel_left h3
  have h5 := str_append_cancel_left h4
  have h6 := str_append_cancel_left h5
  have h7 := str_append_cancel_left h6
  have h8 := str_append_cancel_left h7
  exact str_append_cancel_left h8

/-! Lemmas about the dict model. -/

theorem find?_replace_self (m : List (String × String)) (k v : String)
    (hm : m.any (fun p => p.1 == k) = true) :
    (m.map (fun p => if p.1 == k then (k, v) else p)).find?
      (fun p => p.1 == k) = some (k, v) := by
  induction m with
  | nil => simp at hm
  | cons p m ih =>
    by_cases hp : (p.1 == k) = true
    · simp only [List.map_cons, if_pos hp, List.find?, beq_self_eq_true]
    · have hp' : (p.1 == k) = false := by simpa using hp
      have hm' : m.any (fun p => p.1 == k) = true := by
        simpa [hp'] using hm
      simp only [List.map_cons, List.find?, hp', Bool.false_eq_true,
        ite_false]
      exact ih hm'

theorem find?_replace_ne (m : List (String × String)) (k' v k : String)
    (hne : k ≠ k') :
    (m.map (fun p => if p.1 == k' then (k', v) else p)).find?
      (fun p => p.1 == k) = m.find? (fun p => p.1 == k) := by
  have hk : (k' == k) = false :=
    beq_eq_false_iff_ne.mpr (fun e => hne e.symm)
  induction m with
  | nil => rfl
  | cons p m ih =>
    by_cases hp : (p.1 == k') = true
    · have hp' : p.1 = k' := by simpa using hp
      have h2 : (p.1 == k) = false := by rw [hp']; exact hk
      simp only [List.map_cons, if_pos hp, List.find?, hk, h2,
        Bool.false_eq_true, ite_false]
      exact ih
    · by_cases h2 : (p.1 == k) = true
      · have hpf : (p.1 == k') = false := by simpa using hp
        simp only [List.map_cons, List.find?, hpf, Bool.false_eq_true,
          ite_false, h2]
      · have hpf : (p.1 == k') = false := by simpa using hp
        have h2' : (p.1 == k) = false := by simpa using h2
        simp only [List.map_cons, List.find?, hpf, Bool.false_eq_true,
          ite_false, h2']
        exact ih

theorem dictGet?_dictInsert_self (m : List (String × String)) (k v : String) :
    dictGet? (dictInsert m k v) k = some v := by
  unfold dictInsert dictGet?
  by_cases hm : m.any (fun p => p.1 == k) = true
  · rw [if_pos hm, find?_replace_self m k v hm]
    rfl
  · rw [if_neg hm]
    have hnone : m.find? (fun p => p.1 == k) = none := by
      rw [List.find?_eq_none]
      intro x hx
      intro hxk
      apply hm
      rw [List.any_eq_true]
      exact ⟨x, hx, hxk⟩
    simp [List.find?_append, hnone]

theorem dictGet?_dictInsert_ne (m : List (String × String)) (k' v k : String)
    (hne : k ≠ k') :
    dictGet? (dictInsert m k' v) k = dictGet? m k := by
  unfold dictInsert dictGet?
  by_cases hm : m.any (fun p => p.1 == k') = true
  · rw [if_pos hm, find?_replace_ne m k' v k hne]
  · rw [if_neg hm]
    have hk : (k' == k) = false :=
      beq_eq_false_iff_ne.mpr (fun e => hne e.symm)
    simp [List.find?_append, hk]

/-- Folding the metadata entries into a header dict never touches a key
that is not one of the "x-amz-meta-"-prefixed names. -/
theorem dictGet?_fold_meta (md : List (String × String))
    (m : List (String × String)) (k : String)
    (hk : ∀ s, k ≠ "x-amz-meta-" ++ s) :
    dictGet?
      (md.foldl (fun h p => dictInsert h ("x-amz-meta-" ++ p.1) p.2) m) k
      = dictGet? m k := by
  induction md generalizing m with
  | nil => rfl
  | cons p md ih =>
    rw [List.foldl_cons, ih, dictGet?_dictInsert_ne _ _ _ _ (hk p.1)]

/-- A header name whose first character is not "x" is never one of the
metadata header names. -/
theorem ne_xamzMeta_of_head (k t : String) (ht : t.data.head? ≠ some 'x') :
    t ≠ "x-amz-meta-" ++ k := by
  intro h
  apply ht
  rw [h]
  rfl

/-- Under the C7 hypotheses, set_content_type stores the guessed type. -/
theorem set_content_type_of_guess (q : Query) (n : String)
    (hobj : q.object_name = some n) (hne : n ≠ "")
    (hct : q.content_type = none) :
    q.set_content_type = (mimetypes_guess_type n).1 := by
  simp [Query.set_content_type, hobj, hct, truthy,
    beq_eq_false_iff_ne.mpr hne]

/-! Claim theorems. -/

/-- C3: for every Query and header set, the string handed to the
credential's signing capability is exactly the HTTP method, the
Content-MD5 header value (or empty), the Content-Type header value (or
empty) and the Date header value, each followed by one newline, then the
canonicalized metadata headers, then the canonicalized resource path,
concatenated in that order; the signing capability is invoked with the
sha1 algorithm.  (A credential-less Query signs nothing: the map over
creds is none.) -/
theorem claim3_sign_string_exact (q : Query)
    (headers : List (String × String)) :
    q.sign headers = q.creds.map (fun c => c.sign
      ((q.action ++ "\n") ++ ((dictGetD headers "Content-MD5" "" ++ "\n") ++
        ((dictGetD headers "Content-Type" "" ++ "\n") ++
          ((dictGetD headers "Date" "" ++ "\n") ++
            (get_canonicalized_amz_headers headers ++ q.get_path)))))
      "sha1") := by
  simp [Query.sign, Query.signText, String.append_assoc]

/-- C4 counterexample: on a Query with no bucket but object name "obj"
(not starting with "/"), get_path returns "/" and not "/obj", refuting the
claim as stated, which promises "/" ++ name for every Query. -/
theorem claim4_counterexample :
    q4NoBucket.object_name = some "obj" ∧
    strStartsWith "obj" "/" = false ∧
    q4NoBucket.get_path = "/" ∧ q4NoBucket.get_path ≠ "/" ++ "obj" := by
  refine ⟨rfl, rfl, rfl, ?_⟩
  decide

/-- C4 amended: on a Query whose bucket attribute is set, get_path is "/"
++ name for an object name not starting with "/", the name verbatim when
it starts with "/"; and get_path is "/" when the bucket is None or when
the object name is absent or empty. -/
theorem claim4_amended_get_path (q : Query) :
    (q.bucket.isSome = true →
      (∀ n, q.object_name = some n → n ≠ "" →
        (strStartsWith n "/" = false → q.get_path = "/" ++ n) ∧
        (strStartsWith n "/" = true → q.get_path = n))) ∧
    ((q.bucket = none ∨ q.object_name = none ∨ q.object_name = some "") →
      q.get_path = "/") := by
  constructor
  · intro hb n hn hne
    have hb' : (n == "") = false := beq_eq_false_iff_ne.mpr hne
    constructor <;> intro hs <;>
      simp [Query.get_path, hb, hn, truthy, hb', hs]
  · rintro (h | h | h) <;> simp [Query.get_path, h, truthy]

/-- Witness for the amended C4 at concrete inputs. -/
theorem claim4_amended_get_path_witness :
    q4Bucketed.get_path = "/" ++ "obj" ∧ q4NoBucket.get_path = "/" :=
  ⟨((claim4_amended_get_path q4Bucketed).1 rfl "obj" rfl (by decide)).1 rfl,
   (claim4_amended_get_path q4NoBucket).2 (Or.inl rfl)⟩

/-- C8: on a Query with (nonempty) bucket name b, get_host is b ++ "." ++
endpoint host; with no bucket set it is the endpoint host unchanged. -/
theorem claim8_get_host (q : Query) (b : String) :
    (q.bucket = some b → b ≠ "" →
      q.get_host = b ++ "." ++ q.endpoint.get_host) ∧
    (q.bucket = none → q.get_host = q.endpoint.get_host) := by
  constructor
  · intro hb hne
    have hb' : (b == "") = false := beq_eq_false_iff_ne.mpr hne
    simp [Query.get_host, truthy, hb, hb']
  · intro hb
    simp [Query.get_host, truthy, hb]

/-- Witness for C8 at concrete inputs. -/
theorem claim8_get_host_witness :
    q4Bucketed.get_host = "b" ++ "." ++ "s3.amazonaws.com" ∧
    q4NoBucket.get_host = "s3.amazonaws.com" :=
  ⟨(claim8_get_host q4Bucketed "b").1 rfl (by decide),
   (claim8_get_host q4NoBucket "b").2 rfl⟩

/-- C6: a Query built with no credentials computes no signature and its
header set carries no Authorization header, while Content-Length,
Content-MD5 and Date are still present, with the values the source
computes for them. -/
theorem claim6_unsigned_headers (q : Query) (hc : q.creds = none) :
    dictGet? q.get_headers "Authorization" = none ∧
    dictGet? q.get_headers "Content-Length" = some (toString q.data.length) ∧
    dictGet? q.get_headers "Content-MD5" = some (calculate_md5 q.data) ∧
    dictGet? q.get_headers "Date" = some q.date := by
  have hgh : q.get_headers = q.headersToSign := by
    simp [Query.get_headers, hc]
  have hbase : ∀ k : String, (∀ s, k ≠ "x-amz-meta-" ++ s) →
      dictGet? q.headersToSign k =
        dictGet? [("Content-Length", toString q.data.length),
          ("Content-MD5", calculate_md5 q.data), ("Date", q.date)] k ∨
      (k = "Content-Type" ∧ q.set_content_type ≠ none) := by
    intro k hk
    simp only [Query.headersToSign]
    cases hct : q.set_content_type with
    | none => exact Or.inl (dictGet?_fold_meta _ _ _ hk)
    | some t =>
        by_cases hkct : k = "Content-Type"
        · exact Or.inr ⟨hkct, by simp [hct]⟩
        · rw [dictGet?_dictInsert_ne _ _ _ _ hkct]
          exact Or.inl (dictGet?_fold_meta _ _ _ hk)
  rw [hgh]
  refine ⟨?_, ?_, ?_, ?_⟩
  · rcases hbase "Authorization"
      (fun s => ne_xamzMeta_of_head s _ (by decide)) with h | h
    · rw [h]; rfl
    · exact absurd h.1 (by decide)
  · rcases hbase "Content-Length"
      (fun s => ne_xamzMeta_of_head s _ (by decide)) with h | h
    · rw [h]; rfl
    · exact absurd h.1 (by decide)
  · rcases hbase "Content-MD5"
      (fun s => ne_xamzMeta_of_head s _ (by decide)) with h | h
    · rw [h]; rfl
    · exact absurd h.1 (by decide)
  · rcases hbase "Date"
      (fun s => ne_xamzMeta_of_head s _ (by decide)) with h | h
    · rw [h]; rfl
    · exact absurd h.1 (by decide)

/-- Witness for C6: a concrete credential-less Query. -/
theorem claim6_unsigned_headers_witness :
    dictGet? q4NoBucket.get_headers "Authorization" = none ∧
    dictGet? q4NoBucket.get_headers "Content-Length"
      = some (toString q4NoBucket.data.length) ∧
    dictGet? q4NoBucket.get_headers "Content-MD5"
      = some (calculate_md5 q4NoBucket.data) ∧
    dictGet? q4NoBucket.get_headers "Date" = some q4NoBucket.date :=
  claim6_unsigned_headers q4NoBucket rfl

/-- C7: on a Query with a (nonempty) object name and no supplied content
type, header computation infers the content type from the name: when the
guess succeeds the Content-Type header carries exactly the guessed value —
both in the emitted header set and in the header set the signature is
computed over — and when the guess fails the Content-Type header is
omitted. -/
theorem claim7_content_type_inference (q : Query) (n : String)
    (hobj : q.object_name = some n) (hne : n ≠ "")
    (hct : q.content_type = none) :
    ((mimetypes_guess_type n).1 = none →
      dictGet? q.get_headers "Content-Type" = none) ∧
    (∀ t, (mimetypes_guess_type n).1 = some t →
      dictGet? q.get_headers "Content-Type" = some t ∧
      dictGetD q.headersToSign "Content-Type" "" = t) := by
  have hset := set_content_type_of_guess q n hobj hne hct
  have hCTget : ∀ r, q.set_content_type = r →
      dictGet? q.headersToSign "Content-Type" =
        (r.map (fun t => t)) := by
    intro r hr
    simp only [Query.headersToSign, hr]
    cases r with
    | none =>
        rw [dictGet?_fold_meta _ _ _
          (fun s => ne_xamzMeta_of_head s _ (by decide))]
        rfl
    | some t => rw [dictGet?_dictInsert_self]; rfl
  have hhd : ∀ r, q.set_content_type = r →
      dictGet? q.get_headers "Content-Type" = r.map (fun t => t) := by
    intro r hr
    cases hcr : q.creds with
    | none =>
        simp only [Query.get_headers, hcr]
        exact hCTget r hr
    | some c =>
        simp only [Query.get_headers, hcr]
        rw [dictGet?_dictInsert_ne _ _ _ _ (by decide)]
        exact hCTget r hr
  constructor
  · intro hg
    have := hhd none (hset.trans hg)
    simpa using this
  · intro t hg
    have h1 := hhd (some t) (hset.trans hg)
    have h2 := hCTget (some t) (hset.trans hg)
    refine ⟨by simpa using h1, ?_⟩
    unfold dictGetD
    rw [h2]
    rfl

/-- Witness for C7: the spec scenario, putObject("docs", "report.pdf", ..)
infers application/pdf and carries it in the signed header set. -/
theorem claim7_content_type_inference_witness :
    dictGet? q7Report.get_headers "Content-Type" = some "application/pdf" ∧
    dictGetD q7Report.headersToSign "Content-Type" "" = "application/pdf" :=
  (claim7_content_type_inference q7Report "report.pdf" rfl (by decide)
    rfl).2 "application/pdf" (by decide)

/-! Order properties of the Python tuple comparison, and correctness of
the sort model. -/

theorem char_toNat_inj {a b : Char} (h : a.toNat = b.toNat) : a = b := by
  apply Char.eq_of_val_eq
  exact UInt32.eq_of_toBitVec_eq (BitVec.eq_of_toNat_eq h)

theorem listLtB_total : ∀ as bs : List Char,
    listLtB as bs = false → listLtB bs as = true ∨ as = bs
  | [], [], _ => Or.inr rfl
  | [], _ :: _, h => by simp [listLtB] at h
  | _ :: _, [], _ => Or.inl rfl
  | a :: as, b :: bs, h => by
    rcases Bool.or_eq_false_iff.mp h with ⟨h1, h2⟩
    by_cases he : (a == b) = true
    · have hab : a = b := by simpa using he
      subst hab
      have h3 : listLtB as bs = false := by simpa [he] using h2
      rcases listLtB_total as bs h3 with h4 | h4
      · left
        simp [listLtB, h4]
      · right
        rw [h4]
    · have he' : (a == b) = false := by simpa using he
      have hne : a.toNat ≠ b.toNat := fun hn => by
        have := char_toNat_inj hn
        subst this
        simp at he'
      have hnlt : ¬ a.toNat < b.toNat := by simpa [charLtB] using h1
      have hlt : b.toNat < a.toNat := by omega
      left
      have hc : charLtB b a = true := by simpa [charLtB] using hlt
      simp [listLtB, hc]

theorem listLtB_trans : ∀ as bs cs : List Char,
    listLtB as bs = true → listLtB bs cs = true → listLtB as cs = true
  | [], [], _, h, _ => by simp [listLtB] at h
  | [], _ :: _, [], _, h2 => by simp [listLtB] at h2
  | [], _ :: _, _ :: _, _, _ => rfl
  | _ :: _, [], _, h, _ => by simp [listLtB] at h
  | _ :: _, _ :: _, [], _, h2 => by simp [listLtB] at h2
  | a :: as, b :: bs, c :: cs, h, h2 => by
    simp only [listLtB, Bool.or_eq_true, Bool.and_eq_true] at h h2 ⊢
    rcases h with h | ⟨hab, htl⟩
    · rcases h2 with h2 | ⟨hbc, htl2⟩
      · left
        have ha : a.toNat < b.toNat := by simpa [charLtB] using h
        have hb : b.toNat < c.toNat := by simpa [charLtB] using h2
        simp [charLtB]
        omega
      · have : b = c := by simpa using hbc
        subst this
        left; exact h
    · have hab' : a = b := by simpa using hab
      subst hab'
      rcases h2 with h2 | ⟨hbc, htl2⟩
      · left; exact h2
      · exact Or.inr ⟨hbc, listLtB_trans _ _ _ htl htl2⟩

theorem strLtB_total (a b : String) (h : strLtB a b = false) :
    strLtB b a = true ∨ a = b := by
  rcases listLtB_total a.data b.data h with h2 | h2
  · exact Or.inl h2
  · exact Or.inr (String.ext h2)

theorem strLtB_trans {a b c : String} (h1 : strLtB a b = true)
    (h2 : strLtB b c = true) : strLtB a c = true :=
  listLtB_trans a.data b.data c.data h1 h2

theorem pairLe_total (a b : String × String) (h : pairLe a b = false) :
    pairLe b a = true := by
  unfold pairLe at h ⊢
  rcases Bool.or_eq_false_iff.mp h with ⟨h1, h2⟩
  rcases strLtB_total a.1 b.1 h1 with h3 | h3
  · simp [h3]
  · have he : (a.1 == b.1) = true := by simpa using h3
    have h4 : (strLtB a.2 b.2 || a.2 == b.2) = false := by
      simpa [he] using h2
    rcases Bool.or_eq_false_iff.mp h4 with ⟨h5, h6⟩
    rcases strLtB_total a.2 b.2 h5 with h7 | h7
    · simp [h3, h7]
    · rw [h7] at h6
      simp at h6

theorem pairLe_trans (a b c : String × String) (h1 : pairLe a b = true)
    (h2 : pairLe b c = true) : pairLe a c = true := by
  unfold pairLe at h1 h2 ⊢
  rcases Bool.or_eq_true_iff.mp h1 with h1 | h1
  · rcases Bool.or_eq_true_iff.mp h2 with h2 | h2
    · simp [strLtB_trans h1 h2]
    · have hbc : b.1 = c.1 := by
        simpa using (Bool.and_eq_true_iff.mp h2).1
      rw [hbc] at h1
      simp [h1]
  · have hab : a.1 = b.1 := by simpa using (Bool.and_eq_true_iff.mp h1).1
    rcases Bool.or_eq_true_iff.mp h2 with h2 | h2
    · rw [← hab] at h2
      simp [h2]
    · have hbc : b.1 = c.1 := by simpa using (Bool.and_eq_true_iff.mp h2).1
      have hv1 := (Bool.and_eq_true_iff.mp h1).2
      have hv2 := (Bool.and_eq_true_iff.mp h2).2
      have hac : (a.1 == c.1) = true := by simp [hab, hbc]
      rcases Bool.or_eq_true_iff.mp hv1 with hv1 | hv1
      · rcases Bool.or_eq_true_iff.mp hv2 with hv2 | hv2
        · simp [hac, strLtB_trans hv1 hv2]
        · have : b.2 = c.2 := by simpa using hv2
          rw [this] at hv1
          simp [hac, hv1]
      · have : a.2 = b.2 := by simpa using hv1
        rw [this]
        simp [hac, hv2]

theorem insertPair_perm (a : String × String) :
    ∀ l : List (String × String), List.Perm (insertPair a l) (a :: l)
  | [] => List.Perm.refl _
  | b :: bs => by
    unfold insertPair
    by_cases h : pairLe a b = true
    · rw [if_pos h]
    · rw [if_neg h]
      exact (List.Perm.cons b (insertPair_perm a bs)).trans
        (List.Perm.swap a b bs)

theorem mem_insertPair {x a : String × String}
    {l : List (String × String)} (hx : x ∈ insertPair a l) :
    x = a ∨ x ∈ l := by
  have := (insertPair_perm a l).mem_iff.mp hx
  exact List.mem_cons.mp this

theorem sorted_insertPair (a : String × String)
    (l : List (String × String))
    (hl : List.Pairwise (fun x y => pairLe x y = true) l) :
    List.Pairwise (fun x y => pairLe x y = true) (insertPair a l) := by
  induction l with
  | nil => simp [insertPair]
  | cons b bs ih =>
    rcases List.pairwise_cons.mp hl with ⟨hb, hbs⟩
    unfold insertPair
    by_cases h : pairLe a b = true
    · rw [if_pos h]
      refine List.pairwise_cons.mpr ⟨?_, hl⟩
      intro x hx
      rcases List.mem_cons.mp hx with rfl | hx
      · exact h
      · exact pairLe_trans _ _ _ h (hb x hx)
    · rw [if_neg h]
      have hba : pairLe b a = true :=
        pairLe_total a b (by simpa using h)
      refine List.pairwise_cons.mpr ⟨?_, ih hbs⟩
      intro x hx
      rcases mem_insertPair hx with rfl | hx
      · exact hba
      · exact hb x hx

theorem sortPairs_perm (l : List (String × String)) :
    List.Perm (sortPairs l) l := by
  induction l with
  | nil => exact List.Perm.refl _
  | cons a l ih =>
    exact (insertPair_perm a (sortPairs l)).trans (List.Perm.cons a ih)

theorem sorted_sortPairs (l : List (String × String)) :
    List.Pairwise (fun x y => pairLe x y = true) (sortPairs l) := by
  induction l with
  | nil => exact List.Pairwise.nil
  | cons a l ih => exact sorted_insertPair a _ ih

/-- The boolean string comparison implies the ambient strict order. -/
theorem listLtB_lt : ∀ {as bs : List Char}, listLtB as bs = true → as < bs
  | [], [], h => by simp [listLtB] at h
  | [], _ :: _, _ => List.Lex.nil
  | _ :: _, [], h => by simp [listLtB] at h
  | a :: as, b :: bs, h => by
    rcases Bool.or_eq_true_iff.mp h with h | h
    · refine List.Lex.rel ?_
      have : a.toNat < b.toNat := by simpa [charLtB] using h
      exact this
    · rcases Bool.and_eq_true_iff.mp h with ⟨he, htl⟩
      have hab : a = b := by simpa using he
      subst hab
      exact List.Lex.cons (listLtB_lt htl)

theorem strLtB_lt {a b : String} (h : strLtB a b = true) : a < b :=
  String.lt_iff_toList_lt.mpr (listLtB_lt h)

theorem pairLe_fst_le {a b : String × String} (h : pairLe a b = true) :
    a.1 ≤ b.1 := by
  rcases Bool.or_eq_true_iff.mp h with h | h
  · exact le_of_lt (strLtB_lt h)
  · have : a.1 = b.1 := by simpa using (Bool.and_eq_true_iff.mp h).1
    exact le_of_eq this

/-- C5: for every header mapping, the canonicalized metadata header string
is the join of one "name:value" line (ended by a newline) per header whose
name case-insensitively begins with the vendor prefix "x-amz-", names
lower-cased, arranged in ascending lexicographic order of the lower-cased
names no matter the insertion order of the mapping. -/
theorem claim5_canonicalized_sorted (headers : List (String × String)) :
    ∃ l : List (String × String),
      List.Perm l ((headers.map (fun p => (strLower p.1, p.2))).filter
        (fun p => strStartsWith p.1 "x-amz-")) ∧
      get_canonicalized_amz_headers headers =
        String.join (l.map (fun p => p.1 ++ ":" ++ p.2 ++ "\n")) ∧
      List.Sorted (· ≤ ·) (l.map Prod.fst) := by
  refine ⟨sortPairs ((headers.map (fun p => (strLower p.1, p.2))).filter
      (fun p => strStartsWith p.1 "x-amz-")), sortPairs_perm _, ?_, ?_⟩
  · rfl
  · exact List.Pairwise.map Prod.fst
      (fun a b h => pairLe_fst_le h) (sorted_sortPairs _)

/-- Equal signatures produced by an injective signing capability come from
equal canonical strings. -/
theorem sign_eq_text_eq {q1 q2 : Query}
    {h1 h2 : List (String × String)} {c : Credentials}
    (hc1 : q1.creds = some c) (hc2 : q2.creds = some c)
    (hinj : Function.Injective (fun t => c.sign t "sha1"))
    (hEq : q1.sign h1 = q2.sign h2) :
    q1.signText h1 = q2.signText h2 := by
  unfold Query.sign at hEq
  rw [hc1, hc2] at hEq
  simp only [Option.map_some'] at hEq
  exact hinj (Option.some.inj hEq)

/-- C9: signing is deterministic — Queries agreeing on the action, the
header set, the path and the credentials produce identical signatures —
and changing exactly one of the six signed components (the method, the
Content-MD5 value, the Content-Type value, the Date value, the
canonicalized metadata headers, or the path), all else equal, changes the
canonical string, hence the signature whenever the credential's sha1
signing capability is injective in the signed text (signatures of an
arbitrary collaborator could always collide, so sensitivity of the
signature itself holds exactly up to that injectivity). -/
theorem claim9_sign_deterministic_sensitive
    (q1 q2 : Query) (h1 h2 : List (String × String)) (c : Credentials)
    (hc1 : q1.creds = some c) (hc2 : q2.creds = some c) :
    ((q1.action = q2.action ∧ h1 = h2 ∧ q1.get_path = q2.get_path) →
      q1.sign h1 = q2.sign h2) ∧
    ((q1.action ≠ q2.action ∧
      dictGetD h1 "Content-MD5" "" = dictGetD h2 "Content-MD5" "" ∧
      dictGetD h1 "Content-Type" "" = dictGetD h2 "Content-Type" "" ∧
      dictGetD h1 "Date" "" = dictGetD h2 "Date" "" ∧
      get_canonicalized_amz_headers h1 = get_canonicalized_amz_headers h2 ∧
      q1.get_path = q2.get_path) →
      Function.Injective (fun t => c.sign t "sha1") →
      q1.sign h1 ≠ q2.sign h2) ∧
    ((dictGetD h1 "Content-MD5" "" ≠ dictGetD h2 "Content-MD5" "" ∧
      q1.action = q2.action ∧
      dictGetD h1 "Content-Type" "" = dictGetD h2 "Content-Type" "" ∧
      dictGetD h1 "Date" "" = dictGetD h2 "Date" "" ∧
      get_canonicalized_amz_headers h1 = get_canonicalized_amz_headers h2 ∧
      q1.get_path = q2.get_path) →
      Function.Injective (fun t => c.sign t "sha1") →
      q1.sign h1 ≠ q2.sign h2) ∧
    ((dictGetD h1 "Content-Type" "" ≠ dictGetD h2 "Content-Type" "" ∧
      q1.action = q2.action ∧
      dictGetD h1 "Content-MD5" "" = dictGetD h2 "Content-MD5" "" ∧
      dictGetD h1 "Date" "" = dictGetD h2 "Date" "" ∧
      get_canonicalized_amz_headers h1 = get_canonicalized_amz_headers h2 ∧
      q1.get_path = q2.get_path) →
      Function.Injective (fun t => c.sign t "sha1") →
      q1.sign h1 ≠ q2.sign h2) ∧
    ((dictGetD h1 "Date" "" ≠ dictGetD h2 "Date" "" ∧
      q1.action = q2.action ∧
      dictGetD h1 "Content-MD5" "" = dictGetD h2 "Content-MD5" "" ∧
      dictGetD h1 "Content-Type" "" = dictGetD h2 "Content-Type" "" ∧
      get_canonicalized_amz_headers h1 = get_canonicalized_amz_headers h2 ∧
      q1.get_path = q2.get_path) →
      Function.Injective (fun t => c.sign t "sha1") →
      q1.sign h1 ≠ q2.sign h2) ∧
    ((get_canonicalized_amz_headers h1 ≠ get_canonicalized_amz_headers h2 ∧
      q1.action = q2.action ∧
      dictGetD h1 "Content-MD5" "" = dictGetD h2 "Content-MD5" "" ∧
      dictGetD h1 "Content-Type" "" = dictGetD h2 "Content-Type" "" ∧
      dictGetD h1 "Date" "" = dictGetD h2 "Date" "" ∧
      q1.get_path = q2.get_path) →
      Function.Injective (fun t => c.sign t "sha1") →
      q1.sign h1 ≠ q2.sign h2) ∧
    ((q1.get_path ≠ q2.get_path ∧
      q1.action = q2.action ∧
      dictGetD h1 "Content-MD5" "" = dictGetD h2 "Content-MD5" "" ∧
      dictGetD h1 "Content-Type" "" = dictGetD h2 "Content-Type" "" ∧
      dictGetD h1 "Date" "" = dictGetD h2 "Date" "" ∧
      get_canonicalized_amz_headers h1 = get_canonicalized_amz_headers h2) →
      Function.Injective (fun t => c.sign t "sha1") →
      q1.sign h1 ≠ q2.sign h2) := by
  refine ⟨?_, ?_, ?_, ?_, ?_, ?_, ?_⟩
  · rintro ⟨hm, hh, hp⟩
    unfold Query.sign
    rw [hc1, hc2]
    rw [signText_eq_parts, signText_eq_parts, hm, hh, hp]
  · rintro ⟨hne, ha, hb, hd, hz, hp⟩ hinj hEq
    have ht := sign_eq_text_eq hc1 hc2 hinj hEq
    rw [signText_eq_parts, signText_eq_parts, ha, hb, hd, hz, hp] at ht
    exact hne (signTextParts_inj_method ht)
  · rintro ⟨hne, hm, hb, hd, hz, hp⟩ hinj hEq
    have ht := sign_eq_text_eq hc1 hc2 hinj hEq
    rw [signText_eq_parts, signText_eq_parts, hm, hb, hd, hz, hp] at ht
    exact hne (signTextParts_inj_md5 ht)
  · rintro ⟨hne, hm, ha, hd, hz, hp⟩ hinj hEq
    have ht := sign_eq_text_eq hc1 hc2 hinj hEq
    rw [signText_eq_parts, signText_eq_parts, hm, ha, hd, hz, hp] at ht
    exact hne (signTextParts_inj_ct ht)
  · rintro ⟨hne, hm, ha, hb, hz, hp⟩ hinj hEq
    have ht := sign_eq_text_eq hc1 hc2 hinj hEq
    rw [signText_eq_parts, signText_eq_parts, hm, ha, hb, hz, hp] at ht
    exact hne (signTextParts_inj_date ht)
  · rintro ⟨hne, hm, ha, hb, hd, hp⟩ hinj hEq
    have ht := sign_eq_text_eq hc1 hc2 hinj hEq
    rw [signText_eq_parts, signText_eq_parts, hm, ha, hb, hd, hp] at ht
    exact hne (signTextParts_inj_amz ht)
  · rintro ⟨hne, hm, ha, hb, hd, hz⟩ hinj hEq
    have ht := sign_eq_text_eq hc1 hc2 hinj hEq
    rw [signText_eq_parts, signText_eq_parts, hm, ha, hb, hd, hz] at ht
    exact hne (signTextParts_inj_path ht)

/-- Witness for C9: every branch applied at concrete Queries. -/
theorem claim9_sign_deterministic_sensitive_witness :
    (qW "PUT" "o").sign [] = (qW "PUT" "o").sign [] ∧
    (qW "PUT" "o").sign [] ≠ (qW "GET" "o").sign [] ∧
    (qW "PUT" "o").sign [("Content-MD5", "A")]
      ≠ (qW "PUT" "o").sign [("Content-MD5", "B")] ∧
    (qW "PUT" "o").sign [("Content-Type", "A")]
      ≠ (qW "PUT" "o").sign [("Content-Type", "B")] ∧
    (qW "PUT" "o").sign [("Date", "A")]
      ≠ (qW "PUT" "o").sign [("Date", "B")] ∧
    (qW "PUT" "o").sign [("x-amz-meta-k", "1")]
      ≠ (qW "PUT" "o").sign [("x-amz-meta-k", "2")] ∧
    (qW "PUT" "o1").sign [] ≠ (qW "PUT" "o2").sign [] := by
  refine ⟨?_, ?_, ?_, ?_, ?_, ?_, ?_⟩
  · exact (claim9_sign_deterministic_sensitive (qW "PUT" "o") (qW "PUT" "o")
      [] [] cSign rfl rfl).1 ⟨rfl, rfl, rfl⟩
  · exact (claim9_sign_deterministic_sensitive (qW "PUT" "o") (qW "GET" "o")
      [] [] cSign rfl rfl).2.1
      ⟨by decide, rfl, rfl, rfl, rfl, rfl⟩ (fun a b h => h)
  · exact (claim9_sign_deterministic_sensitive (qW "PUT" "o") (qW "PUT" "o")
      [("Content-MD5", "A")] [("Content-MD5", "B")] cSign rfl rfl).2.2.1
      ⟨by decide, rfl, by decide, by decide, by decide, rfl⟩
      (fun a b h => h)
  · exact (claim9_sign_deterministic_sensitive (qW "PUT" "o") (qW "PUT" "o")
      [("Content-Type", "A")] [("Content-Type", "B")] cSign rfl rfl).2.2.2.1
      ⟨by decide, rfl, by decide, by decide, by decide, rfl⟩
      (fun a b h => h)
  · exact (claim9_sign_deterministic_sensitive (qW "PUT" "o") (qW "PUT" "o")
      [("Date", "A")] [("Date", "B")] cSign rfl rfl).2.2.2.2.1
      ⟨by decide, rfl, by decide, by decide, by decide, rfl⟩
      (fun a b h => h)
  · exact (claim9_sign_deterministic_sensitive (qW "PUT" "o") (qW "PUT" "o")
      [("x-amz-meta-k", "1")] [("x-amz-meta-k", "2")] cSign rfl
      rfl).2.2.2.2.2.1
      ⟨by decide, rfl, by decide, by decide, by decide, rfl⟩
      (fun a b h => h)
  · exact (claim9_sign_deterministic_sensitive (qW "PUT" "o1")
      (qW "PUT" "o2") [] [] cSign rfl rfl).2.2.2.2.2.2
      ⟨by decide, rfl, rfl, rfl, rfl, rfl⟩ (fun a b h => h)

/-- C10: two Queries identical in action, object name, payload, content
type, metadata, date, credentials and endpoint but differing only in
(set) bucket names produce the same canonical signing string, the same
signature and the same header set: the bucket enters get_host (distinct
nonempty bucket names give distinct hosts) but never the signing
string, which ends with get_path. -/
theorem claim10_bucket_not_signed (b1 b2 : String) (obj : Option String)
    (data : String) (ct : Option String) (md : List (String × String))
    (act dt : String) (cr : Option Credentials)
    (ep : AWSServiceEndpoint) (h : List (String × String)) :
    let q1 : Query := ⟨some b1, obj, data, ct, md, act, cr, ep, dt⟩
    let q2 : Query := ⟨some b2, obj, data, ct, md, act, cr, ep, dt⟩
    q1.signText h = q2.signText h ∧ q1.sign h = q2.sign h ∧
    q1.get_headers = q2.get_headers ∧
    (b1 ≠ b2 → b1 ≠ "" → b2 ≠ "" → q1.get_host ≠ q2.get_host) := by
  intro q1 q2
  refine ⟨rfl, rfl, rfl, ?_⟩
  intro hne h1 h2 hEq
  have ht1 : truthy (some b1) = true := by
    simp [truthy, beq_eq_false_iff_ne.mpr h1]
  have ht2 : truthy (some b2) = true := by
    simp [truthy, beq_eq_false_iff_ne.mpr h2]
  rw [Query.get_host, Query.get_host] at hEq
  simp only [ht1, ht2, if_true] at hEq
  apply hne
  exact str_append_cancel_right (str_append_cancel_right hEq)

/-- Witness for C10 at concrete inputs. -/
theorem claim10_bucket_not_signed_witness :
    q10a.signText [] = q10b.signText [] ∧ q10a.sign [] = q10b.sign [] ∧
    q10a.get_headers = q10b.get_headers ∧
    q10a.get_host ≠ q10b.get_host := by
  have h := claim10_bucket_not_signed "alpha" "beta" (some "o") "x" none
    [("k", "v")] "PUT" "D" (some cSign) S3_ENDPOINT []
  exact ⟨h.1, h.2.1, h.2.2.1,
    h.2.2.2 (by decide) (by decide) (by decide)⟩

/-- C1 is refuted by the code: every make_request-based operation fails
with AttributeError on request_factory before any Query is constructed,
because S3Client.__init__ stores the factory under query_factory while
make_request reads self.request_factory, an attribute never assigned. -/
theorem claim1_operations_attribute_error (c : S3Client)
    (now bucket object_name data : String) (content_type : Option String)
    (metadata : List (String × String)) :
    c.put_object now bucket object_name data content_type metadata
      = Except.error (PyError.attributeError "request_factory") ∧
    c.get_object now bucket object_name
      = Except.error (PyError.attributeError "request_factory") ∧
    c.head_object now bucket object_name
      = Except.error (PyError.attributeError "request_factory") ∧
    c.delete_object now bucket object_name
      = Except.error (PyError.attributeError "request_factory") ∧
    c.delete_bucket now bucket
      = Except.error (PyError.attributeError "request_factory") :=
  ⟨rfl, rfl, rfl, rfl, rfl⟩

/-- C2 is refuted by the code: create_bucket on a client with the default
query factory raises TypeError — the positional "PUT" binds to
Query.__init__'s first parameter, which is bucket, and clashes with the
bucket keyword — so no Query is constructed and nothing is submitted. -/
theorem claim2_create_bucket_type_error (creds : Option Credentials)
    (endpoint : Option AWSServiceEndpoint) (now bucket : String) :
    (S3Client.mkDefault creds endpoint).create_bucket now bucket
      = Except.error
          (PyError.typeError "got multiple values for argument bucket") :=
  rfl

end TxAWS
